import Mathlib

/-!
Shallow embedding of the streaming data-visualization backend
(`backend/agents/llm_client.py`, `backend/api/chat.py`, `backend/api/query.py`,
`backend/models/__init__.py`, `backend/main.py`) and proofs about it.

Python strings are modelled as Lean `String`; the Python string operations
used by the code (`upper`, `lower`, `strip`, `rstrip(';')`, `startswith`,
substring containment via `in`) are given explicit executable definitions
over ASCII, matching Python's behaviour on the ASCII inputs the code deals
with.  Python `int` is modelled as `Int`.  JSON-ish "Any" cell values are
modelled by the inductive `JVal`.
-/

/-- Python-style whitespace test: the characters matched by `str.strip()`
and by the regex class `\s` (space, tab, newline, carriage return,
vertical tab, form feed). -/
def isPySpace (c : Char) : Bool :=
  c = ' ' || c = '\t' || c = '\n' || c = '\r' || c = '\x0b' || c = '\x0c'

/-- Model of Python `str.upper()` (ASCII). -/
def pyUpper (s : String) : String :=
  ⟨s.toList.map Char.toUpper⟩

/-- Model of Python `str.lower()` (ASCII). -/
def pyLower (s : String) : String :=
  ⟨s.toList.map Char.toLower⟩

/-- Trim Python whitespace from both ends of a character list. -/
def trimChars (l : List Char) : List Char :=
  ((l.dropWhile isPySpace).reverse.dropWhile isPySpace).reverse

/-- Model of Python `str.strip()`. -/
def pyStrip (s : String) : String :=
  ⟨trimChars s.toList⟩

/-- Model of Python `str.rstrip(';')`: remove every trailing semicolon. -/
def pyRstripSemis (s : String) : String :=
  ⟨(s.toList.reverse.dropWhile (fun c => c = ';')).reverse⟩

/-- Decide whether `p` is a prefix of `l` (model of Python `str.startswith`
at the character-list level). -/
def hasPrefixList : List Char → List Char → Bool
  | [], _ => true
  | _ :: _, [] => false
  | p :: ps, c :: cs => p = c && hasPrefixList ps cs

/-- Decide whether `p` occurs as a contiguous substring of `l`
(model of Python `in` on strings, at the character-list level). -/
def hasSubstrList (p : List Char) : List Char → Bool
  | [] => hasPrefixList p []
  | c :: cs => hasPrefixList p (c :: cs) || hasSubstrList p cs

/-- Model of Python `pat in s` for strings. -/
def strContains (s pat : String) : Bool :=
  hasSubstrList pat.toList s.toList

/-- Model of Python `s.startswith(pat)` for strings. -/
def strStartsWith (s pat : String) : Bool :=
  hasPrefixList pat.toList s.toList

/-- JSON-ish dynamic value, modelling the Python `Any` cells that appear in
`QueryResult.rows` (`List[List[Any]]`). -/
inductive JVal where
  | null : JVal
  | str (s : String) : JVal
  | num (n : Int) : JVal
  | boolean (b : Bool) : JVal
deriving DecidableEq

/-- Embeds `QueryResult` from `backend/models/__init__.py`
(`columns: List[str]`, `rows: List[List[Any]]`, `row_count: int`). -/
structure QueryResult where
  columns : List String
  rows : List (List JVal)
  row_count : Int
deriving DecidableEq

/-- Embeds `RunSQLTool` from `backend/models/__init__.py`
(`query: str`, `limit: int = 1000`, `data_source: Literal["duckdb"]`). -/
structure RunSQLTool where
  query : String
  limit : Int := 1000
  data_source : String := "duckdb"
deriving DecidableEq

/-- Embeds the query-rewriting step of `run_sql`
(`backend/agents/llm_client.py`, lines 40-46):

```
final_query = tool.query
query_upper = tool.query.upper().strip()
if (tool.limit > 0 and
    "LIMIT" not in query_upper and
    query_upper.startswith("SELECT")):
    final_query = f"{tool.query.rstrip(chr(59))} LIMIT {tool.limit}"
```
-/
def limit_query (query : String) (limit : Int) : String :=
  let query_upper := pyStrip (pyUpper query)
  if decide (limit > 0) && !(strContains query_upper "LIMIT")
      && strStartsWith query_upper "SELECT" then
    pyRstripSemis query ++ " LIMIT " ++ toString limit
  else
    query

/-- Modelled from the spec's wording of the (amended) limiting policy:
the limit applies when `limit > 0`, the trimmed upper-cased query does not
contain the substring `LIMIT`, and it starts with `SELECT`. -/
def specLimitApplies (query : String) (limit : Int) : Bool :=
  decide (limit > 0) && !(strContains (pyStrip (pyUpper query)) "LIMIT")
    && strStartsWith (pyStrip (pyUpper query)) "SELECT"

/-! ## Code Block Extractor (`_extract_code_blocks`, llm_client.py lines 302-325)

The Python function scans `text` with the regex `r: triple-backtick,
optional word-character language tag, greedy whitespace followed by a
mandatory newline, then a lazy any-character body up to the next
triple-backtick`, using `re.finditer` with `DOTALL`.  The scanner below is
a direct operational reading of that regex:

* `re.finditer` tries each start position left to right and resumes after
  the end of every successful match;
* the greedy run of word characters after the opening marker is the
  language tag (absent iff empty);
* greedy whitespace followed by a literal newline consumes the whitespace
  run after the tag up to and including its *last* newline (backtracking
  semantics); if that run contains no newline the match at this start
  position fails;
* the lazy body stops at the *first* closing triple-backtick; if there is
  none the match at this start position fails.
-/

/-- The backtick character (avoiding a raw literal). -/
def backtick : Char := Char.ofNat 96

/-- The triple-backtick fence marker as a character list. -/
def fenceChars : List Char := [backtick, backtick, backtick]

/-- The triple-backtick fence marker as a string. -/
def fenceStr : String := ⟨fenceChars⟩

/-- Model of the regex class `\w` (ASCII): letters, digits, underscore. -/
def isWordChar (c : Char) : Bool := c.isAlphanum || c = '_'

/-- Split `cs` at the first triple-backtick occurrence: returns the
characters before it and the characters after it (the lazy body match of
the regex). `none` when no closing marker exists. -/
def splitAtFence : List Char → Option (List Char × List Char)
  | [] => none
  | c :: cs =>
    if hasPrefixList fenceChars (c :: cs) then some ([], (c :: cs).drop 3)
    else
      match splitAtFence cs with
      | some (body, rest) => some (c :: body, rest)
      | none => none

/-- Attempt the regex match right after an opening triple-backtick.
Returns the optional language tag, the raw (untrimmed) body, and the
remaining input after the closing marker. -/
def matchFenceBlock (cs : List Char) : Option (Option (List Char) × List Char × List Char) :=
  let lang := cs.takeWhile isWordChar
  let afterLang := cs.dropWhile isWordChar
  let ws := afterLang.takeWhile isPySpace
  let trailing := (ws.reverse.takeWhile (fun c => !(c = '\n'))).length
  if trailing = ws.length then none
  else
    match splitAtFence (afterLang.drop (ws.length - trailing)) with
    | some (body, rest) =>
      some ((if lang.isEmpty then none else some lang), body, rest)
    | none => none

/-- Left-to-right scan for fenced blocks, resuming after each complete
match and at the next character after a failed opening marker, exactly as
`re.finditer` does.  `fuel` only guarantees termination; `fuel = length of
the input` always suffices because every step consumes at least one
character. -/
def scanFences : Nat → List Char → List (Option (List Char) × List Char)
  | 0, _ => []
  | _ + 1, [] => []
  | fuel + 1, c :: cs =>
    if hasPrefixList fenceChars (c :: cs) then
      match matchFenceBlock ((c :: cs).drop 3) with
      | some (lang, body, rest) => (lang, body) :: scanFences fuel rest
      | none => scanFences fuel cs
    else scanFences fuel cs

/-- All raw regex matches of the fenced-block pattern in `text`, in
left-to-right order of their opening markers. -/
def rawCodeBlocks (text : String) : List (Option (List Char) × List Char) :=
  scanFences text.toList.length text.toList

/-- Embeds `_extract_code_blocks` (llm_client.py lines 302-325): for each
regex match, the language defaults to tsx when no tag is present, the body
is stripped, and blocks whose stripped body is empty are dropped. -/
def extract_code_blocks (text : String) : List (String × String) :=
  (rawCodeBlocks text).filterMap fun b =>
    let content := trimChars b.2
    if content.isEmpty then none
    else some ((⟨b.1.getD ['t', 's', 'x']⟩ : String), (⟨content⟩ : String))

/-! ## Event Demultiplexer (`handle_agent_events`, llm_client.py lines 233-276)
and stream wrapper (`stream_agent_response`, lines 279-299).

The pydantic-ai lifecycle events are embedded as a sum type covering the
shapes the code branches on (`PartStartEvent`, `PartDeltaEvent`,
`PartEndEvent`, `FunctionToolResultEvent`) plus catch-all constructors for
every other shape, which the code ignores.
-/

/-- Embeds the pydantic-ai `part` union the code inspects:
`TextPart{content}` and `ToolCallPart{tool_name, args}`. -/
inductive AgentPart where
  | text (content : String) : AgentPart
  | tool_call (tool_name : String) (args : String) : AgentPart
deriving DecidableEq

/-- Embeds the delta union: `TextPartDelta{content_delta}` or any other
delta shape (e.g. a tool-call delta), which the code ignores. -/
inductive AgentDelta where
  | text_delta (content_delta : String) : AgentDelta
  | other_delta : AgentDelta
deriving DecidableEq

/-- Embeds `event.result.content` of a `FunctionToolResultEvent`: either a
`QueryResult` or any other result shape. -/
inductive ToolResultContent where
  | query_result (qr : QueryResult) : ToolResultContent
  | other_content : ToolResultContent
deriving DecidableEq

/-- Embeds the `AgentStreamEvent` union consumed by
`handle_agent_events`. -/
inductive AgentStreamEvent where
  | part_start (part : AgentPart) : AgentStreamEvent
  | part_delta (delta : AgentDelta) : AgentStreamEvent
  | part_end (part : AgentPart) : AgentStreamEvent
  | tool_result (content : ToolResultContent) : AgentStreamEvent
  | other_event : AgentStreamEvent
deriving DecidableEq

/-- Embeds the protocol-event dictionaries yielded by the pipeline:
`thought`, `code`, `data`, `error`. -/
inductive ProtoEvent where
  | thought (content : String) : ProtoEvent
  | code (language : String) (content : String) : ProtoEvent
  | data (columns : List String) (rows : List (List JVal)) (row_count : Int) : ProtoEvent
  | error (message : String) (stage : String) : ProtoEvent
deriving DecidableEq

/-- Embeds `handle_agent_events` (llm_client.py lines 233-276): a fold over
the lifecycle event list with the accumulated `thought_buffer` as state.
The Python initialises the buffer to the empty string; callers pass it
explicitly here. -/
def handle_agent_events : List AgentStreamEvent → String → List ProtoEvent
  | [], _ => []
  | ev :: rest, buf =>
    match ev with
    | .part_start p =>
      match p with
      | .text content => .thought content :: handle_agent_events rest content
      | .tool_call _ _ => handle_agent_events rest buf
    | .part_delta d =>
      match d with
      | .text_delta delta =>
        .thought (buf ++ delta) :: handle_agent_events rest (buf ++ delta)
      | .other_delta => handle_agent_events rest buf
    | .tool_result content =>
      match content with
      | .query_result qr =>
        .data qr.columns qr.rows qr.row_count :: handle_agent_events rest buf
      | .other_content => handle_agent_events rest buf
    | .part_end p =>
      match p with
      | .text content =>
        (extract_code_blocks content).map (fun b => .code b.1 b.2)
          ++ handle_agent_events rest buf
      | .tool_call tool_name args =>
        .thought ("Calling tool: " ++ tool_name ++ " with args: " ++ args)
          :: handle_agent_events rest buf
    | .other_event => handle_agent_events rest buf

/-- Embeds `stream_agent_response` (llm_client.py lines 279-299).  The
upstream generation either ends normally (`failure = none`) after
delivering `events`, or raises after delivering them
(`failure = some message`); the `except` clause then yields exactly one
terminal error event with stage llm_processing. -/
def stream_agent_response (events : List AgentStreamEvent) (failure : Option String) :
    List ProtoEvent :=
  handle_agent_events events ""
    ++ match failure with
       | none => []
       | some m => [.error m "llm_processing"]

/-! ## Tool Invocation Bridge (`run_sql`, llm_client.py lines 20-68)

The httpx round trip is modelled by an oracle `engine : String ->
EngineHttpResponse` giving the response of the query endpoint for the
dispatched query.  The branches mirror the Python `try/except`:

* 2xx with a body validating as `QueryResult` returns it;
* 2xx with a non-conforming body: `QueryResult(**result_data)` raises a
  validation error which propagates uncaught;
* `raise_for_status` raising `HTTPStatusError`: the handler reads
  `error_data.get("detail", str(e))` (so `str(e)` when the body is not
  JSON or has no detail field) and raises
  `ValueError(f-string: SQL execution error colon detail)`;
* `RequestError` (unreachable, timeout): raises
  `ValueError(f-string: Failed to connect to query endpoint colon err)`.
-/

/-- Body of a 2xx response as seen by `QueryResult(**result_data)`: either
it validates, or pydantic raises with some message. -/
inductive ResponseBody where
  | conforming (qr : QueryResult) : ResponseBody
  | malformed (err : String) : ResponseBody
deriving DecidableEq

/-- Outcome of the httpx POST to the query endpoint.  For a non-2xx
status, `detail` is the parsed detail field of the JSON body when
present and `estr` models `str(e)`. -/
inductive EngineHttpResponse where
  | ok (body : ResponseBody) : EngineHttpResponse
  | status_error (detail : Option String) (estr : String) : EngineHttpResponse
  | request_error (estr : String) : EngineHttpResponse
deriving DecidableEq

/-- Embeds `run_sql` (llm_client.py lines 20-68): rewrite the query with
the limiting policy, dispatch it to the engine, and translate the
response; failures are `Except.error` with the raised message. -/
def run_sql (tool : RunSQLTool) (engine : String → EngineHttpResponse) :
    Except String QueryResult :=
  let final_query := limit_query tool.query tool.limit
  match engine final_query with
  | .ok (.conforming qr) => .ok qr
  | .ok (.malformed err) => .error err
  | .status_error detail estr =>
    .error ("SQL execution error: " ++ detail.getD estr)
  | .request_error estr =>
    .error ("Failed to connect to query endpoint: " ++ estr)

/-! ## Local DuckDB query endpoint (`query_local_duckdb`, query.py lines 28-126)

The DuckDB engine run inside the subprocess script is modelled by its
outcome: a successful cursor (`description` column names plus fetched
rows, each cell a NULL or a value whose Python `str()` rendering is the
given string), a raised exception, or a subprocess timeout.  The script
(query.py lines 35-65) stringifies every non-null cell and sets
`row_count = len(rows)`; the endpoint turns the error JSON into HTTP 400
with detail `SQL execution error: ...` and a timeout into HTTP 504.
-/

/-- Outcome of `conn.execute(sql).fetchall()` in the subprocess script.
Each cell is `none` for SQL NULL or `some s` where `s` models the Python
`str()` rendering of the value. -/
inductive DuckOutcome where
  | success (description : List String) (result : List (List (Option String))) : DuckOutcome
  | failure (err : String) : DuckOutcome
  | timeout : DuckOutcome
deriving DecidableEq

/-- Stringification performed by the script:
`str(cell) if cell is not None else None`. -/
def duckCellToJVal : Option String → JVal
  | some s => .str s
  | none => .null

/-- Embeds `query_local_duckdb` (query.py lines 28-126) composed with the
subprocess script (lines 35-65): success returns the script's JSON parsed
into `QueryResult`; a DuckDB error becomes HTTP 400, a timeout HTTP 504,
each as a status code paired with the detail string. -/
def query_local_duckdb (outcome : DuckOutcome) : Except (Nat × String) QueryResult :=
  match outcome with
  | .success description result =>
    let rows := result.map (fun row => row.map duckCellToJVal)
    .ok { columns := description, rows := rows, row_count := (rows.length : Int) }
  | .failure err => .error (400, "SQL execution error: " ++ err)
  | .timeout => .error (504, "Query execution timed out")

/-- The query endpoint viewed from `run_sql`'s httpx client: a 2xx body
serializing the returned `QueryResult` (which validates, since it has the
declared field types), or a status error whose JSON detail field carries
the `HTTPException` detail. -/
def bridge_engine (outcome : DuckOutcome) : String → EngineHttpResponse :=
  fun _ =>
    match query_local_duckdb outcome with
    | .ok qr => .ok (.conforming qr)
    | .error (_, detail) => .status_error (some detail) "HTTP status error"

/-! ## Chat endpoint (`chat`, chat.py lines 26-119)

Each SSE frame the generator yields is modelled as a structured event;
the JSON payloads are the hard-coded dictionaries of the source.
-/

/-- Frames yielded by the chat endpoint generator. -/
inductive ChatFrame where
  | thought (content : String) : ChatFrame
  | data (columns : List String) (rows : List (List JVal)) (row_count : Int) : ChatFrame
  | code (language : String) (content : String) : ChatFrame
deriving DecidableEq

/-- The hard-coded mock frames of the data branch (chat.py lines 38-63). -/
def chat_data_frames : List ChatFrame :=
  [.thought "I'll show you some sample data.",
   .data ["region", "sales", "date"]
     [[.str "North", .str "1000", .str "2024-01-01"],
      [.str "South", .str "2000", .str "2024-01-02"],
      [.str "East", .str "1500", .str "2024-01-03"],
      [.str "West", .str "1800", .str "2024-01-04"]]
     4]

/-- The hard-coded sample component of the code branch (chat.py lines
76-83), transcribed verbatim. -/
def chat_sample_code : String :=
  "export default function Visualization(\x7b data \x7d) \x7b\n  return (\n    <div className=\"p-4\">\n      <h2 className=\"text-2xl font-bold mb-4\">Data Visualization</h2>\n      <p>This is a sample visualization component.</p>\n    </div>\n  );\n\x7d"

/-- Chunking loop of chat.py lines 86-88: successive 20-character slices.
Fuel-driven; fuel equal to the input length always suffices. -/
def chunk20 : Nat → List Char → List (List Char)
  | 0, _ => []
  | _ + 1, [] => []
  | fuel + 1, c :: cs => ((c :: cs).take 20) :: chunk20 fuel ((c :: cs).drop 20)

/-- The hard-coded frames of the code branch (chat.py lines 66-95). -/
def chat_code_frames : List ChatFrame :=
  .thought "I'll generate some UI code for you."
    :: (chunk20 chat_sample_code.toList.length chat_sample_code.toList).map
        (fun chunk => .code "tsx" (⟨chunk⟩ : String))

/-- Embeds the body of the `generate_chunks` generator (chat.py lines
32-110): keyword matching on the lowercased message selects among the
hard-coded frame groups, and a message matching no keyword yields one
echo thought frame. -/
def chat_body (message : String) : List ChatFrame :=
  let um := pyLower message
  (if strContains um "show data" || strContains um "data" then chat_data_frames else [])
    ++ (if strContains um "show code" || strContains um "code" then chat_code_frames else [])
    ++ (if !(strContains um "show data") && !(strContains um "data")
          && !(strContains um "show code") && !(strContains um "code") then
          [.thought ("Received: " ++ message)]
        else [])

/-! ## Application entry point (`main.py` lines 7-32)

The FastAPI application setup is embedded as the list of registration
operations performed at module top level: one CORS middleware and the two
GET route decorators.  No `include_router` call occurs in the file.
-/

/-- One application-setup operation in `main.py`. -/
inductive AppSetupOp where
  | add_middleware (nm : String) : AppSetupOp
  | get_route (path : String) : AppSetupOp
  | include_router (nm : String) : AppSetupOp
deriving DecidableEq

/-- Transcription of the module-level setup of `main.py`: the CORS
middleware (lines 14-20) and the two GET routes (lines 23-32). -/
def main_app_setup : List AppSetupOp :=
  [.add_middleware "CORSMiddleware", .get_route "/", .get_route "/health"]

/-- Paths registered directly on the application. -/
def registered_routes (ops : List AppSetupOp) : List String :=
  ops.filterMap fun op =>
    match op with
    | .get_route p => some p
    | _ => none

/-- Routers included into the application. -/
def included_routers (ops : List AppSetupOp) : List String :=
  ops.filterMap fun op =>
    match op with
    | .include_router n => some n
    | _ => none

/-- Concrete QueryResult used by the C7 witness. -/
def qrWitness7 : QueryResult :=
  { columns := ["a", "b"], rows := [[.str "1", .null]], row_count := 1 }

/-- Concrete QueryResult used by the C10 witness. -/
def qrWitness10 : QueryResult :=
  { columns := ["a"], rows := [[.str "1"], [.null]], row_count := 2 }

/-! ## Helper lemmas -/

/-- Recognise error protocol events. -/
def isErrorEvent : ProtoEvent → Bool
  | .error _ _ => true
  | _ => false

/-- Recognise data protocol events. -/
def isDataEvent : ProtoEvent → Bool
  | .data _ _ _ => true
  | _ => false

/-- Recognise tool-result lifecycle events carrying a `QueryResult`. -/
def isQueryResultEvent : AgentStreamEvent → Bool
  | .tool_result (.query_result _) => true
  | _ => false

theorem hasPrefixList_iff (p l : List Char) : hasPrefixList p l = true ↔ p <+: l := by
  induction p generalizing l with
  | nil => simp [hasPrefixList]
  | cons a ps ih =>
    cases l with
    | nil => simp [hasPrefixList]
    | cons c cs => simp [hasPrefixList, ih]

theorem hasSubstrList_iff (p l : List Char) : hasSubstrList p l = true ↔ p <:+: l := by
  induction l with
  | nil => simp [hasSubstrList, hasPrefixList_iff]
  | cons c cs ih => simp [hasSubstrList, hasPrefixList_iff, ih, List.infix_cons_iff]

theorem strContains_sub (s p q : String) (hpq : strContains q p = true)
    (h : strContains s p = false) : strContains s q = false := by
  cases hq : strContains s q with
  | false => rfl
  | true =>
    have h1 : p.toList <:+: q.toList := (hasSubstrList_iff _ _).mp hpq
    have h2 : q.toList <:+: s.toList := (hasSubstrList_iff _ _).mp hq
    have h3 : strContains s p = true := (hasSubstrList_iff _ _).mpr (h1.trans h2)
    rw [h] at h3
    exact absurd h3 (by simp)

theorem scanFences_eq_nil (fuel : Nat) (cs : List Char)
    (h : hasSubstrList fenceChars cs = false) : scanFences fuel cs = [] := by
  induction fuel generalizing cs with
  | zero => rfl
  | succ n ih =>
    cases cs with
    | nil => rfl
    | cons c rest =>
      rw [hasSubstrList] at h
      simp only [Bool.or_eq_false_iff] at h
      obtain ⟨hp, hs⟩ := h
      have hrest := ih rest hs
      simp [scanFences, hp, hrest]

theorem handle_agent_events_no_error (evs : List AgentStreamEvent) (buf : String) :
    (handle_agent_events evs buf).countP isErrorEvent = 0 := by
  induction evs generalizing buf with
  | nil => rfl
  | cons ev rest ih =>
    cases ev with
    | part_start p =>
      cases p <;> simp [handle_agent_events, List.countP_cons, isErrorEvent, ih]
    | part_delta d =>
      cases d <;> simp [handle_agent_events, List.countP_cons, isErrorEvent, ih]
    | tool_result c =>
      cases c <;> simp [handle_agent_events, List.countP_cons, isErrorEvent, ih]
    | part_end p =>
      cases p with
      | text content =>
        simp only [handle_agent_events, List.countP_append, ih, Nat.add_zero]
        rw [List.countP_map]
        apply List.countP_eq_zero.mpr
        intro a _
        simp [isErrorEvent, Function.comp]
      | tool_call nm ar =>
        simp [handle_agent_events, List.countP_cons, isErrorEvent, ih]
    | other_event => simp [handle_agent_events, ih]

theorem handle_agent_events_data_count (evs : List AgentStreamEvent) (buf : String) :
    (handle_agent_events evs buf).countP isDataEvent
      = evs.countP isQueryResultEvent := by
  induction evs generalizing buf with
  | nil => rfl
  | cons ev rest ih =>
    cases ev with
    | part_start p =>
      cases p <;>
        simp [handle_agent_events, List.countP_cons, isDataEvent, isQueryResultEvent, ih]
    | part_delta d =>
      cases d <;>
        simp [handle_agent_events, List.countP_cons, isDataEvent, isQueryResultEvent, ih]
    | tool_result c =>
      cases c <;>
        simp [handle_agent_events, List.countP_cons, isDataEvent, isQueryResultEvent, ih]
    | part_end p =>
      cases p with
      | text content =>
        simp only [handle_agent_events, List.countP_append, ih]
        rw [List.countP_map]
        have hz : List.countP (isDataEvent ∘ fun b => ProtoEvent.code b.1 b.2)
            (extract_code_blocks content) = 0 := by
          apply List.countP_eq_zero.mpr
          intro a _
          simp [isDataEvent, Function.comp]
        rw [hz]
        simp [List.countP_cons, isQueryResultEvent]
      | tool_call nm ar =>
        simp [handle_agent_events, List.countP_cons, isDataEvent, isQueryResultEvent, ih]
    | other_event =>
      simp [handle_agent_events, List.countP_cons, isQueryResultEvent, ih]

theorem handle_deltas_scanl (ds : List String) (b : String) :
    ProtoEvent.thought b
        :: handle_agent_events (ds.map (fun d => .part_delta (.text_delta d))) b
      = (List.scanl (fun x y => x ++ y) b ds).map ProtoEvent.thought := by
  induction ds generalizing b with
  | nil => rfl
  | cons d ds ih =>
    simp only [List.map_cons, handle_agent_events, List.scanl]
    rw [← ih (b ++ d)]

theorem limit_query_pos (q : String) (l : Int)
    (h : specLimitApplies q l = true) :
    limit_query q l = pyRstripSemis q ++ " LIMIT " ++ toString l := by
  simp only [limit_query]
  simp only [specLimitApplies] at h
  rw [if_pos h]

theorem limit_query_neg (q : String) (l : Int)
    (h : specLimitApplies q l = false) :
    limit_query q l = q := by
  simp only [limit_query]
  simp only [specLimitApplies] at h
  rw [if_neg (by simp [h])]

/-! ## Claim theorems -/

/-- C1 (amended): `limit_query` appends the limiting clause exactly when
`limit > 0`, the trimmed query case-insensitively starts with SELECT, and
the trimmed upper-cased query does not contain the substring LIMIT (not:
the token LIMIT); when applied, the rewrite strips all trailing
semicolons (not: one trailing terminator) and appends the clause with the
numeric limit; every other query is forwarded verbatim.  The four
concrete examples of the spec hold as stated. -/
theorem spec_C1_limit_query :
    (∀ q l, specLimitApplies q l = true →
        limit_query q l = pyRstripSemis q ++ " LIMIT " ++ toString l)
    ∧ (∀ q l, specLimitApplies q l = false → limit_query q l = q)
    ∧ limit_query "SELECT * FROM t" 1000 = "SELECT * FROM t LIMIT 1000"
    ∧ limit_query "SELECT * FROM t LIMIT 5" 1000 = "SELECT * FROM t LIMIT 5"
    ∧ limit_query "CREATE TABLE t(x int)" 1000 = "CREATE TABLE t(x int)"
    ∧ limit_query "select * from t;" 10 = "select * from t LIMIT 10" :=
  ⟨limit_query_pos, limit_query_neg, by decide, by decide, by decide, by decide⟩

/-- C1 witness: the two quantified parts of the amended claim evaluated at
concrete inputs. -/
theorem spec_C1_limit_query_witness :
    limit_query "SELECT 1" 5 = pyRstripSemis "SELECT 1" ++ " LIMIT " ++ toString (5 : Int)
    ∧ limit_query "CREATE TABLE x(y int)" 7 = "CREATE TABLE x(y int)" :=
  ⟨spec_C1_limit_query.1 "SELECT 1" 5 (by decide),
   spec_C1_limit_query.2.1 "CREATE TABLE x(y int)" 7 (by decide)⟩

/-- C1 counterexample to the claim as stated: (1) the code tests for the
substring LIMIT, not the token — the query SELECT delimited FROM t
contains no LIMIT token, yet it is forwarded verbatim because DELIMITED
contains the substring; (2) the rewrite strips every trailing semicolon,
not one: on SELECT * FROM t;; (limit 10) the code yields
SELECT * FROM t LIMIT 10, while stripping one terminator would yield
SELECT * FROM t; LIMIT 10. -/
theorem spec_C1_counterexample :
    limit_query "SELECT delimited FROM t" 10 = "SELECT delimited FROM t"
    ∧ limit_query "SELECT * FROM t;;" 10 = "SELECT * FROM t LIMIT 10"
    ∧ limit_query "SELECT * FROM t;;" 10 ≠ "SELECT * FROM t; LIMIT 10" :=
  ⟨by decide, by decide, by decide⟩

/-- C2: when the upstream generation raises mid-stream,
`stream_agent_response` produces exactly one error event, it is the last
event of the output, and its stage is llm_processing; when the upstream
ends normally, no error event is produced. -/
theorem spec_C2_error_terminal :
    (∀ evs m, (stream_agent_response evs (some m)).countP isErrorEvent = 1
      ∧ (stream_agent_response evs (some m)).getLast?
          = some (.error m "llm_processing"))
    ∧ ∀ evs, (stream_agent_response evs none).countP isErrorEvent = 0 := by
  constructor
  · intro evs m
    constructor
    · simp [stream_agent_response, List.countP_append,
        handle_agent_events_no_error, List.countP_cons, isErrorEvent]
    · simp [stream_agent_response, List.getLast?_concat]
  · intro evs
    simp [stream_agent_response, handle_agent_events_no_error]

/-- C4: a `PartStart` carrying a `TextPart` resets the buffer to the
part's content and emits it as a thought, and each subsequent text delta
appends to the buffer and emits the entire accumulated buffer; the
outputs are exactly the left scan of string concatenation.  In
particular, `PartStart` with empty content followed by deltas a, b, c
yields exactly the four thoughts with contents empty, a, ab, abc. -/
theorem spec_C4_cumulative_thoughts :
    (∀ (s : String) (ds : List String) (buf : String),
      handle_agent_events
          (.part_start (.text s) :: ds.map (fun d => .part_delta (.text_delta d))) buf
        = (List.scanl (fun x y => x ++ y) s ds).map ProtoEvent.thought)
    ∧ handle_agent_events
        [.part_start (.text ""), .part_delta (.text_delta "a"),
         .part_delta (.text_delta "b"), .part_delta (.text_delta "c")] ""
        = [.thought "", .thought "a", .thought "ab", .thought "abc"] := by
  constructor
  · intro s ds buf
    simp only [handle_agent_events]
    exact handle_deltas_scanl ds s
  · decide

/-- C5: the demultiplexer emits exactly one data event per tool result
carrying a `QueryResult` — with columns, rows and row count copied from
it — and zero data events for any other tool-result shape, which is
dropped silently. -/
theorem spec_C5_data_events :
    (∀ evs buf, (handle_agent_events evs buf).countP isDataEvent
        = evs.countP isQueryResultEvent)
    ∧ (∀ qr rest buf,
        handle_agent_events (.tool_result (.query_result qr) :: rest) buf
          = .data qr.columns qr.rows qr.row_count :: handle_agent_events rest buf)
    ∧ ∀ rest buf,
        handle_agent_events (.tool_result .other_content :: rest) buf
          = handle_agent_events rest buf :=
  ⟨handle_agent_events_data_count, fun _ _ _ => rfl, fun _ _ => rfl⟩

/-- C3: `extract_code_blocks` on the spec's example returns the two blocks
in source order with the default tsx language; a text with no
triple-backtick yields the empty sequence; and every returned block comes
from a raw scanned fenced region, with language defaulting to tsx when no
tag is present, content whitespace-trimmed, and empty-after-trim content
excluded. -/
theorem spec_C3_extract :
    extract_code_blocks "```tsx\nconst x=1;\n```\n```\nplain\n```"
        = [("tsx", "const x=1;"), ("tsx", "plain")]
    ∧ (∀ t : String, strContains t fenceStr = false → extract_code_blocks t = [])
    ∧ ∀ (t : String) (b : String × String), b ∈ extract_code_blocks t →
        ∃ raw, raw ∈ rawCodeBlocks t
          ∧ b.1 = (⟨raw.1.getD ['t', 's', 'x']⟩ : String)
          ∧ b.2 = (⟨trimChars raw.2⟩ : String)
          ∧ trimChars raw.2 ≠ [] := by
  refine ⟨by decide, ?_, ?_⟩
  · intro t h
    have h' : hasSubstrList fenceChars t.toList = false := h
    unfold extract_code_blocks rawCodeBlocks
    rw [scanFences_eq_nil _ _ h']
    rfl
  · intro t b hb
    simp only [extract_code_blocks, List.mem_filterMap] at hb
    obtain ⟨raw, hraw, hfb⟩ := hb
    refine ⟨raw, hraw, ?_⟩
    by_cases hc : (trimChars raw.2).isEmpty = true
    · simp [hc] at hfb
    · rw [if_neg hc] at hfb
      have hb2 : b = ((⟨raw.1.getD ['t', 's', 'x']⟩ : String), (⟨trimChars raw.2⟩ : String)) :=
        (Option.some.inj hfb).symm
      subst hb2
      exact ⟨rfl, rfl, by simpa using hc⟩

/-- C3 witness: the two quantified parts applied to concrete texts. -/
theorem spec_C3_extract_witness :
    extract_code_blocks "hello" = []
    ∧ ∃ raw, raw ∈ rawCodeBlocks "```js\nhi\n```"
        ∧ ("js", "hi").1 = (⟨raw.1.getD ['t', 's', 'x']⟩ : String)
        ∧ ("js", "hi").2 = (⟨trimChars raw.2⟩ : String)
        ∧ trimChars raw.2 ≠ [] :=
  ⟨spec_C3_extract.2.1 "hello" (by decide),
   spec_C3_extract.2.2 "```js\nhi\n```" ("js", "hi") (by decide)⟩

/-- C6 (amended): on a structured failure response carrying an error
description, `run_sql` fails with the message "SQL execution error: "
followed by the description verbatim (not the description alone); on a
connectivity failure it fails with the distinct message "Failed to
connect to query endpoint: " followed by the transport error; and
`run_sql` fails rather than returning in exactly these cases plus a
non-conforming success response. -/
theorem spec_C6_run_sql_errors :
    (∀ (t : RunSQLTool) (eng : String → EngineHttpResponse) (d e : String),
      eng (limit_query t.query t.limit) = .status_error (some d) e →
      run_sql t eng = .error ("SQL execution error: " ++ d))
    ∧ (∀ (t : RunSQLTool) (eng : String → EngineHttpResponse) (e : String),
      eng (limit_query t.query t.limit) = .request_error e →
      run_sql t eng = .error ("Failed to connect to query endpoint: " ++ e))
    ∧ ∀ (t : RunSQLTool) (eng : String → EngineHttpResponse),
      (∃ m, run_sql t eng = .error m)
        ↔ ∀ qr, eng (limit_query t.query t.limit) ≠ .ok (.conforming qr) := by
  refine ⟨?_, ?_, ?_⟩
  · intro t eng d e h
    simp [run_sql, h]
  · intro t eng e h
    simp [run_sql, h]
  · intro t eng
    constructor
    · rintro ⟨m, hm⟩ qr hq
      simp only [run_sql] at hm
      rw [hq] at hm
      exact absurd hm (by simp)
    · intro h
      cases hre : eng (limit_query t.query t.limit) with
      | ok body =>
        cases body with
        | conforming qr => exact absurd hre (h qr)
        | malformed err => exact ⟨err, by simp [run_sql, hre]⟩
      | status_error d e =>
        exact ⟨"SQL execution error: " ++ d.getD e, by simp [run_sql, hre]⟩
      | request_error e =>
        exact ⟨"Failed to connect to query endpoint: " ++ e, by simp [run_sql, hre]⟩

/-- C6 witness: the connectivity branch applied to a concrete engine. -/
theorem spec_C6_witness :
    run_sql { query := "SELECT 1", limit := 5, data_source := "duckdb" }
        (fun _ => .request_error "boom")
      = .error ("Failed to connect to query endpoint: " ++ "boom") :=
  spec_C6_run_sql_errors.2.1 _ _ "boom" rfl

/-- C6 counterexample to the claim as stated: on a structured failure with
description "table missing" the raised message is
"SQL execution error: table missing", which is not the description
verbatim. -/
theorem spec_C6_counterexample :
    run_sql { query := "SELECT 1", limit := 5, data_source := "duckdb" }
        (fun _ => .status_error (some "table missing") "estr")
      = .error ("SQL execution error: table missing")
    ∧ run_sql { query := "SELECT 1", limit := 5, data_source := "duckdb" }
        (fun _ => .status_error (some "table missing") "estr")
      ≠ .error "table missing" := by
  constructor
  · rfl
  · intro h
    rw [show run_sql { query := "SELECT 1", limit := 5, data_source := "duckdb" }
          (fun _ => .status_error (some "table missing") "estr")
        = Except.error ("SQL execution error: table missing") from rfl] at h
    exact absurd (Except.error.inj h) (by decide)

/-- C7: a QueryResult produced by a successful bridge round trip through
the local DuckDB query endpoint and re-serialized by the demultiplexer
into a data event has row_count equal to the length of its rows; and,
under the DB cursor guarantee that every fetched row has one cell per
described column, every row's length equals the number of columns. -/
theorem spec_C7_round_trip :
    ∀ (t : RunSQLTool) (oc : DuckOutcome) (qr : QueryResult) (buf : String),
      run_sql t (bridge_engine oc) = .ok qr →
      (∀ desc result, oc = .success desc result →
        ∀ row ∈ result, row.length = desc.length) →
      handle_agent_events [.tool_result (.query_result qr)] buf
          = [.data qr.columns qr.rows qr.row_count]
        ∧ qr.row_count = (qr.rows.length : Int)
        ∧ ∀ row ∈ qr.rows, row.length = qr.columns.length := by
  intro t oc qr buf hok harity
  cases oc with
  | failure err =>
    exact absurd hok (by simp [run_sql, bridge_engine, query_local_duckdb])
  | timeout =>
    exact absurd hok (by simp [run_sql, bridge_engine, query_local_duckdb])
  | success desc result =>
    have hq : ({ columns := desc,
                 rows := result.map (fun row => row.map duckCellToJVal),
                 row_count :=
                   ((result.map (fun row => row.map duckCellToJVal)).length : Int) }
        : QueryResult) = qr := by
      simpa [run_sql, bridge_engine, query_local_duckdb] using hok
    subst hq
    refine ⟨rfl, rfl, ?_⟩
    intro row hrow
    simp only [List.mem_map] at hrow
    obtain ⟨row₀, hr₀, rfl⟩ := hrow
    simp only [List.length_map]
    exact harity desc result rfl row₀ hr₀

/-- C7 witness: the round-trip invariant at a concrete engine outcome. -/
theorem spec_C7_witness :
    handle_agent_events [.tool_result (.query_result qrWitness7)] ""
        = [.data qrWitness7.columns qrWitness7.rows qrWitness7.row_count]
    ∧ qrWitness7.row_count = (qrWitness7.rows.length : Int)
    ∧ ∀ row ∈ qrWitness7.rows, row.length = qrWitness7.columns.length :=
  spec_C7_round_trip { query := "SELECT 1", limit := 5, data_source := "duckdb" }
    (.success ["a", "b"] [[some "1", none]]) qrWitness7 "" rfl
    (by intro desc result h; cases h; decide)

/-- C8: the chat endpoint body is produced purely by keyword matching on
the lowercased message: a message containing neither data nor code
(case-insensitively) yields exactly one thought frame echoing the
original message, and every frame ever produced is one of the hard-coded
mock frames or that echo frame — the LLM pipeline is never involved. -/
theorem spec_C8_chat_mock :
    (∀ m : String, strContains (pyLower m) "data" = false →
        strContains (pyLower m) "code" = false →
        chat_body m = [.thought ("Received: " ++ m)])
    ∧ ∀ (m : String) (f : ChatFrame), f ∈ chat_body m →
        f ∈ chat_data_frames ∨ f ∈ chat_code_frames
          ∨ f = .thought ("Received: " ++ m) := by
  constructor
  · intro m hdata hcode
    have hsd : strContains (pyLower m) "show data" = false :=
      strContains_sub _ "data" "show data" (by decide) hdata
    have hsc : strContains (pyLower m) "show code" = false :=
      strContains_sub _ "code" "show code" (by decide) hcode
    simp [chat_body, hdata, hcode, hsd, hsc]
  · intro m f hf
    simp only [chat_body, List.mem_append] at hf
    rcases hf with (h | h) | h
    · split at h
      · exact Or.inl h
      · simp at h
    · split at h
      · exact Or.inr (Or.inl h)
      · simp at h
    · split at h
      · simp at h
        exact Or.inr (Or.inr h)
      · simp at h

/-- C8 witness: both parts at concrete messages. -/
theorem spec_C8_witness :
    chat_body "hello" = [.thought ("Received: " ++ "hello")]
    ∧ (ChatFrame.thought ("Received: " ++ "hi") ∈ chat_data_frames
        ∨ ChatFrame.thought ("Received: " ++ "hi") ∈ chat_code_frames
        ∨ ChatFrame.thought ("Received: " ++ "hi")
            = ChatFrame.thought ("Received: " ++ "hi")) :=
  ⟨spec_C8_chat_mock.1 "hello" (by decide) (by decide),
   spec_C8_chat_mock.2 "hi" (ChatFrame.thought ("Received: " ++ "hi")) (by decide)⟩

/-- C9: the FastAPI application in `main.py` registers exactly the two
routes root and health, and includes no router — in particular neither
the chat router nor the query router. -/
theorem spec_C9_routes :
    registered_routes main_app_setup = ["/", "/health"]
    ∧ included_routers main_app_setup = [] := by decide

/-- C10: every successful response of the local DuckDB query endpoint has
only cells that are null or strings, and its row_count equals the number
of rows. -/
theorem spec_C10_duckdb_invariant :
    ∀ (oc : DuckOutcome) (qr : QueryResult),
      query_local_duckdb oc = .ok qr →
      (∀ row ∈ qr.rows, ∀ cell ∈ row, cell = JVal.null ∨ ∃ s, cell = JVal.str s)
      ∧ qr.row_count = (qr.rows.length : Int) := by
  intro oc qr hok
  cases oc with
  | failure err => exact absurd hok (by simp [query_local_duckdb])
  | timeout => exact absurd hok (by simp [query_local_duckdb])
  | success desc result =>
    have hq : ({ columns := desc,
                 rows := result.map (fun row => row.map duckCellToJVal),
                 row_count :=
                   ((result.map (fun row => row.map duckCellToJVal)).length : Int) }
        : QueryResult) = qr := by
      simpa [query_local_duckdb] using hok
    subst hq
    refine ⟨?_, rfl⟩
    intro row hrow cell hcell
    simp only [List.mem_map] at hrow
    obtain ⟨row₀, _, rfl⟩ := hrow
    simp only [List.mem_map] at hcell
    obtain ⟨cell₀, _, rfl⟩ := hcell
    cases cell₀ with
    | none => exact Or.inl rfl
    | some s => exact Or.inr ⟨s, rfl⟩

/-- C10 witness: the invariant at a concrete engine outcome with one
string cell and one null cell. -/
theorem spec_C10_witness :
    (∀ row ∈ qrWitness10.rows, ∀ cell ∈ row,
        cell = JVal.null ∨ ∃ s, cell = JVal.str s)
    ∧ qrWitness10.row_count = (qrWitness10.rows.length : Int) :=
  spec_C10_duckdb_invariant (.success ["a"] [[some "1"], [none]]) qrWitness10 rfl
